import Mathlib

/-!
Verification of the Cararth ingestion and validation pipeline (worker.py).

The Python source is shallowly embedded: pure computations become Lean
functions, the per-listing finalization loop of process_ingest_batch becomes
an explicit step function threaded through a fold over the batch, and each
external provider call (Anthropic validation, OpenAI embeddings, premium
finalization, image download and CDN upload) is represented by an oracle
value describing that call's outcome, with the function body translating the
source's handling of each outcome.  Money amounts are modelled with exact
rationals; vector math for deduplication is modelled over the reals, with
the 0.5 power of the source rendered as Real.sqrt.
-/

namespace Cararth

/-- Configured threshold CONFIDENCE_THRESHOLD, default 0.7 (worker.py line 42). -/
def CONFIDENCE_THRESHOLD : ℚ := 7/10

/-- Configured threshold TRUST_SCORE_PUBLISH, default 0.6 (worker.py line 43). -/
def TRUST_SCORE_PUBLISH : ℚ := 3/5

/-- Configured threshold GPT5_PRICE_THRESHOLD, default 300000 INR (worker.py line 46). -/
def GPT5_PRICE_THRESHOLD : ℕ := 300000

/-- Configured cap DAILY_GPT5_BUDGET, default 50.0 USD (worker.py line 47). -/
def DAILY_GPT5_BUDGET : ℚ := 50

/-- Cost recorded for one successful premium finalization call (worker.py line 496). -/
def GPT5_CALL_COST : ℚ := 1/20

/-- Cost recorded for one successful embedding call (worker.py line 525). -/
def EMBEDDING_COST : ℚ := 1/10000

/-- Python truthiness of an optional string: None and the empty string are falsy. -/
def truthyS : Option String → Bool
  | none => false
  | some s => !s.isEmpty

/-- Python `a or b` on optional strings: a if truthy, else b. -/
def orS (a b : Option String) : Option String :=
  if truthyS a then a else b

/-- Python `a or b` on lists: a if nonempty, else b. -/
def orL (a b : List String) : List String :=
  if a.isEmpty then b else a

/-- Python truthiness of an optional natural: None and 0 are falsy. -/
def truthyN : Option ℕ → Bool
  | none => false
  | some k => !(k == 0)

/-- Fields of the "extracted" sub-dictionary of a raw item that normalize_item reads. -/
structure RawExtracted where
  title : Option String := none
  name : Option String := none
  price : Option String := none
  price_inr : Option String := none
  make : Option String := none
  brand : Option String := none
  model : Option String := none
  year : Option String := none
  mileage : Option String := none
  city : Option String := none
  images : List String := []
  contact : Option String := none
deriving DecidableEq

/-- Top-level fields of a raw scraped item that normalize_item reads. -/
structure RawItem where
  source : String := ""
  source_id : String := ""
  extracted : RawExtracted := {}
  title : Option String := none
  price : Option String := none
  city : Option String := none
  images : List String := []
  contact : Option String := none
deriving DecidableEq

/-- The normalized listing shape produced by normalize_item (worker.py lines 208-244). -/
structure NormalizedListing where
  title : Option String := none
  price : Option ℕ := none
  make : Option String := none
  model : Option String := none
  year : Option String := none
  mileage : Option String := none
  city : Option String := none
  images : List String := []
  contact : Option String := none
deriving DecidableEq

/-- The digit characters of a string, in order: the join of `ch for ch in s if ch.isdigit()`. -/
def stripNonDigits (s : String) : List Char := s.data.filter Char.isDigit

/-- Positional value of a digit string, the meaning of Python int() on it. -/
def digitsToNat (l : List Char) : ℕ := l.foldl (fun acc c => 10 * acc + (c.toNat - 48)) 0

/-- Price parsing of normalize_item (worker.py lines 219-229): strip non-digits and
take the integer value; an absent price, or a string with no digits (so that int()
raises on the empty string), yields none. -/
def parsePrice : Option String → Option ℕ
  | none => none
  | some s =>
    let ds := stripNonDigits s
    if ds.isEmpty then none else some (digitsToNat ds)

/-- Clamp to the unit interval (worker.py line 243). -/
def clamp01 (x : ℚ) : ℚ := max 0 (min 1 x)

/-- Embedding of normalize_item (worker.py lines 208-244): field mapping with
Python-or fallback chains, soft price parsing, and the fixed confidence
deductions 0.4 / 0.3 / 0.2 with final clamping to the unit interval. -/
def normalize_item (raw : RawItem) : NormalizedListing × ℚ :=
  let ex := raw.extracted
  let priceStr := orS (orS ex.price ex.price_inr) raw.price
  let price := parsePrice priceStr
  let c0 : ℚ := 9/10
  let c1 := if price.isNone then c0 - 4/10 else c0
  let images := orL (orL ex.images raw.images) []
  let contact := orS ex.contact raw.contact
  let c2 := if images.isEmpty then c1 - 3/10 else c1
  let c3 := if truthyS contact then c2 else c2 - 2/10
  ({ title := orS (orS ex.title raw.title) ex.name
     price := price
     make := orS ex.make ex.brand
     model := ex.model
     year := ex.year
     mileage := ex.mileage
     city := orS ex.city raw.city
     images := images
     contact := contact }, clamp01 c3)

/-- C6: the Normalizer's confidence equals the 0.9 baseline minus the fixed
deduction for each missing critical field (0.4 price, 0.3 images, 0.2 contact),
clamped to the unit interval; hence it always lies in the unit interval and
never exceeds the 0.9 baseline. -/
theorem normalize_confidence_spec (raw : RawItem) :
    (normalize_item raw).2
      = clamp01 (9/10 - (if (normalize_item raw).1.price.isNone then (4:ℚ)/10 else 0)
          - (if (normalize_item raw).1.images.isEmpty then (3:ℚ)/10 else 0)
          - (if truthyS (normalize_item raw).1.contact then 0 else (2:ℚ)/10))
    ∧ 0 ≤ (normalize_item raw).2 ∧ (normalize_item raw).2 ≤ 1
    ∧ (normalize_item raw).2 ≤ 9/10 := by
  simp only [normalize_item, clamp01]
  split_ifs <;> norm_num

/-- C7: price parsing strips non-digit characters and returns the resulting
integer; when no digits remain or the price is absent it yields a null price
and the 0.4 confidence deduction instead of raising.  The raw item used keeps
images and contact present so only the price deduction is visible, and the
sample price string of the spec parses to 450000. -/
theorem normalize_price_parsing :
    (∀ s : String,
      (normalize_item { extracted := { price := some s, images := ["i"], contact := some "c" } }).1.price
        = if (s.data.filter Char.isDigit).isEmpty then none
          else some (digitsToNat (s.data.filter Char.isDigit)))
    ∧ (∀ s : String,
      (normalize_item { extracted := { price := some s, images := ["i"], contact := some "c" } }).2
        = if (s.data.filter Char.isDigit).isEmpty then 1/2 else 9/10)
    ∧ (normalize_item { extracted := { price := some "₹4,50,000" } }).1.price = some 450000
    ∧ (normalize_item { price := none }).1.price = none := by
  have hc : ("c").isEmpty = false := by decide
  have he : ("").isEmpty = true := by decide
  have hed : ("").data = ([] : List Char) := by decide
  refine ⟨?_, ?_, by decide, by decide⟩
  · intro s
    by_cases hs : s.isEmpty = true
    · rw [String.isEmpty_iff] at hs
      subst hs
      simp [normalize_item, orS, truthyS, he, hed, parsePrice, stripNonDigits]
    · rw [Bool.not_eq_true] at hs
      simp [normalize_item, orS, truthyS, hs, parsePrice, stripNonDigits]
  · intro s
    by_cases hs : s.isEmpty = true
    · rw [String.isEmpty_iff] at hs
      subst hs
      simp [normalize_item, orS, truthyS, he, hed, hc, orL, parsePrice, stripNonDigits,
        clamp01, max_def, min_def]
      norm_num
    · rw [Bool.not_eq_true] at hs
      by_cases hd : (s.data.filter Char.isDigit).isEmpty = true
      · simp [normalize_item, orS, truthyS, hs, hc, orL, parsePrice, stripNonDigits, hd,
          clamp01, max_def, min_def]
        norm_num
      · rw [Bool.not_eq_true] at hd
        simp [normalize_item, orS, truthyS, hs, hc, orL, parsePrice, stripNonDigits, hd,
          clamp01, max_def, min_def]
        norm_num

/-- Price band as produced at finalization (low / median / high / confidence). -/
structure PriceBand where
  low : ℤ
  median : ℤ
  high : ℤ
  confidence : ℚ
deriving DecidableEq

/-- Finalization decision shape returned by call_gpt5_finalize and by the
non-escalated default of the loop. -/
structure Decision where
  approve : Bool
  price_band : PriceBand
  summary : String
  final_trust_score : ℚ
deriving DecidableEq

/-- Price band used by every fallback path: low = int(price*0.95),
median = price, high = int(price*1.05), confidence 0.7.  The Python int()
truncation on a nonnegative product coincides with the floor. -/
def defaultBand (price : ℕ) : PriceBand :=
  ⟨⌊(price : ℚ) * (19/20)⌋, price, ⌊(price : ℚ) * (21/20)⌋, 7/10⟩

/-- Outcome of one attempted premium finalization call: the client is not
configured, or the call succeeded and its JSON parsed to a decision, or the
call failed or its response was unparsable. -/
inductive GptOutcome where
  | noClient
  | ok (d : Decision)
  | err
deriving DecidableEq

/-- Embedding of call_gpt5_finalize (worker.py lines 426-511).  Returns the
decision together with the amount the function itself adds to
model_spend["gpt5"]: the per-call cost on a parsed success, nothing on the
no-client fallback (approve iff price > 0) and nothing on the failure
fallback (approve iff price > 50000). -/
def call_gpt5_finalize (outcome : GptOutcome) (normalized : NormalizedListing) :
    Decision × ℚ :=
  let price := normalized.price.getD 0
  match outcome with
  | .noClient =>
      ({ approve := decide (0 < price), price_band := defaultBand price
         summary := "Standard listing validation", final_trust_score := 3/4 }, 0)
  | .ok d => (d, GPT5_CALL_COST)
  | .err =>
      ({ approve := decide (50000 < price), price_band := defaultBand price
         summary := "Used car fallback summary", final_trust_score := 3/4 }, 0)

/-- Outcome of one attempted trust-validation call. -/
inductive TrustOutcome where
  | noClient
  | ok (trust : ℚ)
  | err
deriving DecidableEq

/-- Embedding of call_anthropic_validation (worker.py lines 302-356) reduced
to the trust score it yields: the parsed score on success, 0.8 when the
client is not configured or the call failed or was unparsable. -/
def call_anthropic_validation (outcome : TrustOutcome) : ℚ :=
  match outcome with
  | .noClient => 4/5
  | .ok t => t
  | .err => 4/5

/-- Outcome of one presigned-URL upload attempt. -/
inductive UploadOutcome where
  | ok (publicUrl : String)
  | fail
deriving DecidableEq

/-- Embedding of upload_to_cdn (worker.py lines 610-648): the public URL on
success, and the local file path as a file:// fallback reference on any
failure; the function never raises and never returns nothing. -/
def upload_to_cdn (outcome : UploadOutcome) (localPath : String) : String :=
  match outcome with
  | .ok url => url
  | .fail => "file://" ++ localPath

/-- Embedding of the image caching block of the loop (worker.py lines
748-760): at most the first 5 image URLs are submitted; a failed download
(download u = none) contributes nothing, a successful download is uploaded
and the upload result (public URL or file:// fallback) is appended.  The
thread pool completes in nondeterministic order; this sequentialization
fixes submission order, which the verified facts (length and membership) do
not depend on. -/
def processImages (download : String → Option String)
    (uploadOutcome : String → UploadOutcome) (urls : List String) : List String :=
  (urls.take 5).filterMap fun u =>
    (download u).map fun p => upload_to_cdn (uploadOutcome p) p

/-- Per-listing environment for one iteration of the finalization loop: the
reloaded normalized record and confidence, plus the oracle outcomes of every
external call the iteration can make. -/
structure ListingCtx where
  normalized : NormalizedListing
  confidence : ℚ
  trustOutcome : TrustOutcome := .noClient
  embCharged : Bool := false
  similar : List ℕ := []
  gptOutcome : GptOutcome := .noClient
  download : String → Option String := fun _ => none
  uploadOutcome : String → UploadOutcome := fun _ => .fail

/-- Terminal status a listing row can take in the loop. -/
inductive Status where
  | raw
  | needs_human
  | published
  | needs_review
deriving DecidableEq

/-- Everything one loop iteration produces for a listing, plus the value of
model_spend["gpt5"] after the iteration. -/
structure StepResult where
  status : Status
  trustCalled : Bool
  escalated : Bool
  trust_score : ℚ
  final : Option Decision
  cached_images : List String
  spend : ℚ

/-- Embedding of one iteration of the per-listing loop of
process_ingest_batch (worker.py lines 691-792): the missing-field gate, the
selective trust evaluation, the embedding charge against model_spend["gpt5"]
(worker.py line 526, applied whenever the embedding call was billed), the
budget-gated premium escalation with the loop's own extra 0.05 increment
(worker.py line 739), the synthesized default decision otherwise, image
caching, and the publish / needs_review status update.  The anomaly check
never fires because the placeholder median equals the price (worker.py
lines 720-721), so it does not appear. -/
def listingStep (budget spend : ℚ) (li : ListingCtx) : StepResult :=
  let n := li.normalized
  if !truthyN n.price || n.images.isEmpty then
    { status := .needs_human, trustCalled := false, escalated := false
      trust_score := 0, final := none, cached_images := [], spend := spend }
  else
    let price := n.price.getD 0
    let trustCalled := decide (GPT5_PRICE_THRESHOLD ≤ price) || decide (li.confidence < 17/20)
    let trust_score := if trustCalled then call_anthropic_validation li.trustOutcome else 9/10
    let spend1 := spend + (if li.embCharged then EMBEDDING_COST else 0)
    let needs_final := decide (GPT5_PRICE_THRESHOLD ≤ price)
      || decide (trust_score < TRUST_SCORE_PUBLISH) || decide (0 < li.similar.length)
    let escalated := needs_final && decide (spend1 < budget)
    let finalSpend :=
      if escalated then
        let fs := call_gpt5_finalize li.gptOutcome n
        (fs.1, spend1 + fs.2 + GPT5_CALL_COST)
      else
        ({ approve := true, price_band := defaultBand price
           summary := "Standard listing"
           final_trust_score := min (17/20) trust_score }, spend1)
    let cached := processImages li.download li.uploadOutcome n.images
    let status := if finalSpend.1.approve && decide (TRUST_SCORE_PUBLISH ≤ trust_score)
      then Status.published else Status.needs_review
    { status := status, trustCalled := trustCalled, escalated := escalated
      trust_score := trust_score, final := some finalSpend.1
      cached_images := cached, spend := finalSpend.2 }

/-- The evolution of model_spend["gpt5"] over a whole run of the
finalization loop, starting from the given counter value. -/
def runLoopSpend (budget : ℚ) (items : List ListingCtx) (spend0 : ℚ) : ℚ :=
  items.foldl (fun s li => (listingStep budget s li).spend) spend0

/-- C4: a listing whose normalized record has a null price or an empty image
list is gated to needs_human: no trust evaluation, no escalation, no
finalization decision, no spend change, and it is never published. -/
theorem missing_field_gate (budget spend : ℚ) (li : ListingCtx)
    (h : li.normalized.price = none ∨ li.normalized.images = []) :
    (listingStep budget spend li).status = Status.needs_human
    ∧ (listingStep budget spend li).trustCalled = false
    ∧ (listingStep budget spend li).escalated = false
    ∧ (listingStep budget spend li).final = none
    ∧ (listingStep budget spend li).spend = spend
    ∧ (listingStep budget spend li).status ≠ Status.published := by
  have hcond : (!truthyN li.normalized.price || li.normalized.images.isEmpty) = true := by
    rcases h with h | h
    · simp [h, truthyN]
    · simp [h]
  simp [listingStep, hcond]

/-- C2: a listing that passes the missing-field gate is escalated to the
premium provider if and only if (price at or above GPT5_PRICE_THRESHOLD, or
evaluated trust below TRUST_SCORE_PUBLISH, or a near-duplicate was found)
and the recorded gpt5 spend at the check is below the configured daily
budget; in particular a high-priced listing with high trust and no
duplicates is escalated whenever the budget allows. -/
theorem escalation_rule (budget spend : ℚ) (li : ListingCtx)
    (hp : truthyN li.normalized.price = true)
    (hi : li.normalized.images.isEmpty = false) :
    ((listingStep budget spend li).escalated = true ↔
      ((GPT5_PRICE_THRESHOLD ≤ li.normalized.price.getD 0
          ∨ (listingStep budget spend li).trust_score < TRUST_SCORE_PUBLISH
          ∨ li.similar ≠ [])
        ∧ spend + (if li.embCharged then EMBEDDING_COST else 0) < budget))
    ∧ (GPT5_PRICE_THRESHOLD ≤ li.normalized.price.getD 0 →
        spend + (if li.embCharged then EMBEDDING_COST else 0) < budget →
        (listingStep budget spend li).escalated = true) := by
  have hcond : (!truthyN li.normalized.price || li.normalized.images.isEmpty) = false := by
    simp [hp, hi]
  constructor
  · simp [listingStep, hcond, List.length_pos]
    tauto
  · intro h1 h2
    simp [listingStep, hcond, h1, h2]

/-- C3: a listing that reaches the Finalizer but is not escalated (in
particular when the daily premium budget is at cap) receives the synthesized
default decision: approve, price band floor(price*0.95) / price /
floor(price*1.05) with confidence 0.7, and final trust min(0.85, evaluated
trust). -/
theorem default_decision (budget spend : ℚ) (li : ListingCtx)
    (hp : truthyN li.normalized.price = true)
    (hi : li.normalized.images.isEmpty = false)
    (hne : (listingStep budget spend li).escalated = false) :
    (listingStep budget spend li).final = some
      { approve := true
        price_band := ⟨⌊(li.normalized.price.getD 0 : ℚ) * (19/20)⌋,
          li.normalized.price.getD 0, ⌊(li.normalized.price.getD 0 : ℚ) * (21/20)⌋, 7/10⟩
        summary := "Standard listing"
        final_trust_score := min (17/20) (listingStep budget spend li).trust_score } := by
  have hcond : (!truthyN li.normalized.price || li.normalized.images.isEmpty) = false := by
    simp [hp, hi]
  simp only [listingStep, hcond, Bool.false_eq_true, if_false] at hne ⊢
  rw [hne]
  simp [defaultBand]

/-- C10: with no premium client configured, call_gpt5_finalize returns the
fixed fallback decision with approve iff price > 0, the ±5 percent band with
confidence 0.7, final trust 0.75, and adds nothing to the spend counter; the
post-failure fallback instead approves iff price > 50000, so the two
fallbacks use different approval floors (they differ at price 1000). -/
theorem gpt5_fallback_floors (n : NormalizedListing) (p : ℕ) (hp : n.price = some p) :
    (call_gpt5_finalize GptOutcome.noClient n).1.approve = decide (0 < p)
    ∧ (call_gpt5_finalize GptOutcome.noClient n).1.price_band
        = ⟨⌊(p : ℚ) * (19/20)⌋, p, ⌊(p : ℚ) * (21/20)⌋, 7/10⟩
    ∧ (call_gpt5_finalize GptOutcome.noClient n).1.final_trust_score = 3/4
    ∧ (call_gpt5_finalize GptOutcome.noClient n).2 = 0
    ∧ (call_gpt5_finalize GptOutcome.err n).1.approve = decide (50000 < p)
    ∧ (call_gpt5_finalize GptOutcome.err n).2 = 0
    ∧ ((call_gpt5_finalize GptOutcome.noClient
          { n with price := some 1000 }).1.approve = true
        ∧ (call_gpt5_finalize GptOutcome.err
          { n with price := some 1000 }).1.approve = false) := by
  simp [call_gpt5_finalize, defaultBand, hp]

/-- Bounds on what call_gpt5_finalize itself adds to the counter: nothing on
either fallback, the per-call cost on success. -/
theorem gpt5_call_cost_bounds (o : GptOutcome) (n : NormalizedListing) :
    0 ≤ (call_gpt5_finalize o n).2 ∧ (call_gpt5_finalize o n).2 ≤ GPT5_CALL_COST := by
  cases o <;> simp [call_gpt5_finalize, GPT5_CALL_COST]

/-- Shape lemma for the budget-gated branch: the gate checks the counter
before the call, and on the taken branch the counter grows by the inner call
cost plus the loop's own per-call increment. -/
theorem ite_pair_spend_le (N : Bool) (budget s1 d K M : ℚ) (x y : Decision)
    (hdK : d ≤ K) (hs : s1 ≤ M) (hb : budget + 2 * K ≤ M) :
    (if (N && decide (s1 < budget)) = true then (x, s1 + d + K) else (y, s1)).2 ≤ M := by
  split_ifs with h
  · rw [Bool.and_eq_true] at h
    have hlt := of_decide_eq_true h.2
    dsimp only
    linarith
  · exact hs

/-- One loop iteration either leaves the counter within one embedding cost of
its old value, or (when it escalated, which requires the counter to be below
the budget at the check) lands below budget plus twice the per-call cost. -/
theorem listingStep_spend_le (budget spend : ℚ) (li : ListingCtx) :
    (listingStep budget spend li).spend
      ≤ max (spend + EMBEDDING_COST) (budget + 2 * GPT5_CALL_COST) := by
  have hcost := gpt5_call_cost_bounds li.gptOutcome li.normalized
  have hemb : (0:ℚ) ≤ EMBEDDING_COST := by norm_num [EMBEDDING_COST]
  have hembIf : (if li.embCharged = true then EMBEDDING_COST else (0:ℚ)) ≤ EMBEDDING_COST := by
    split_ifs <;> norm_num [EMBEDDING_COST]
  simp only [listingStep]
  split
  · exact le_trans (by linarith) (le_max_left _ _)
  · dsimp only
    exact ite_pair_spend_le _ budget _ _ _ _ _ _
      hcost.2 (le_trans (by linarith) (le_max_left _ _)) (le_max_right _ _)

/-- Over a whole run the counter stays below the larger of its start value and
the budget, plus twice the per-call cost and one embedding cost per listing. -/
theorem runLoopSpend_le (budget : ℚ) (items : List ListingCtx) (spend0 : ℚ) :
    runLoopSpend budget items spend0
      ≤ max spend0 (budget + 2 * GPT5_CALL_COST)
        + (items.length : ℚ) * EMBEDDING_COST := by
  induction items generalizing spend0 with
  | nil => simp [runLoopSpend, le_max_left]
  | cons li rest ih =>
    have hemb : (0:ℚ) ≤ EMBEDDING_COST := by norm_num [EMBEDDING_COST]
    have hstep := listingStep_spend_le budget spend0 li
    have htail := ih ((listingStep budget spend0 li).spend)
    have hmax : max ((listingStep budget spend0 li).spend) (budget + 2 * GPT5_CALL_COST)
        ≤ max spend0 (budget + 2 * GPT5_CALL_COST) + EMBEDDING_COST := by
      apply max_le
      · refine le_trans hstep (max_le ?_ ?_)
        · exact add_le_add_right (le_max_left _ _) _
        · linarith [le_max_right spend0 (budget + 2 * GPT5_CALL_COST)]
      · linarith [le_max_right spend0 (budget + 2 * GPT5_CALL_COST)]
    have hrun : runLoopSpend budget (li :: rest) spend0
        = runLoopSpend budget rest ((listingStep budget spend0 li).spend) := rfl
    rw [hrun]
    refine le_trans htail ?_
    have hlen : ((li :: rest).length : ℚ) = (rest.length : ℚ) + 1 := by
      push_cast [List.length_cons]
      ring
    rw [hlen]
    linarith [hmax]

/-- C1 (amended): starting a day from a zero counter, after any run of the
finalization loop model_spend["gpt5"] is at most DAILY_GPT5_BUDGET plus TWICE
the per-call cost plus one embedding cost per listing processed.  The
spec-claimed bound of one per-call cost fails: the loop adds 0.05 on top of
the 0.05 already added inside call_gpt5_finalize, and every embedding call
bills 0.0001 to the same counter with no budget gate. -/
theorem gpt5_spend_bound (budget : ℚ) (items : List ListingCtx) (h : 0 ≤ budget) :
    runLoopSpend budget items 0
      ≤ budget + 2 * GPT5_CALL_COST + (items.length : ℚ) * EMBEDDING_COST := by
  have hb := runLoopSpend_le budget items 0
  have hmax : max (0:ℚ) (budget + 2 * GPT5_CALL_COST) = budget + 2 * GPT5_CALL_COST := by
    apply max_eq_right
    norm_num [GPT5_CALL_COST]
    linarith
  rw [hmax] at hb
  exact hb

/-- Decision payload returned by the premium provider in the counterexample run. -/
def cxDecision : Decision :=
  { approve := true, price_band := ⟨0, 0, 0, 0⟩, summary := "", final_trust_score := 1 }

/-- A listing that passes the gate, escalates on price, and bills one
embedding call: price 300000, one image, high trust, provider call parsed. -/
def cxListing : ListingCtx :=
  { normalized := { price := some 300000, images := ["img"] }
    confidence := 9/10
    trustOutcome := TrustOutcome.ok (9/10)
    embCharged := true
    similar := []
    gptOutcome := GptOutcome.ok cxDecision }

/-- C1 (counterexample): with the configured daily cap at 0.0002 USD, a run
of three listings ends with model_spend["gpt5"] = 0.1003, which exceeds the
cap plus one per-call cost (0.0502) and even the cap plus two per-call costs
(0.1002): the claimed budget bound is false for the code. -/
theorem gpt5_budget_claim_cx :
    runLoopSpend (1/5000) [cxListing, cxListing, cxListing] 0 = 1003/10000
    ∧ ¬(runLoopSpend (1/5000) [cxListing, cxListing, cxListing] 0
        ≤ 1/5000 + GPT5_CALL_COST)
    ∧ ¬(runLoopSpend (1/5000) [cxListing, cxListing, cxListing] 0
        ≤ 1/5000 + 2 * GPT5_CALL_COST) := by
  have h : runLoopSpend (1/5000) [cxListing, cxListing, cxListing] 0 = 1003/10000 := by
    norm_num [runLoopSpend, listingStep, cxListing, cxDecision, truthyN,
      call_anthropic_validation, call_gpt5_finalize, GPT5_PRICE_THRESHOLD,
      TRUST_SCORE_PUBLISH, EMBEDDING_COST, GPT5_CALL_COST]
  refine ⟨h, ?_, ?_⟩ <;> rw [h] <;> norm_num [GPT5_CALL_COST]

/-- The cached list has exactly one entry per successfully downloaded image
among the submitted ones. -/
theorem length_filterMap_eq_count {α β : Type} (f : α → Option β) (l : List α) :
    (l.filterMap f).length = (l.filter fun a => (f a).isSome).length := by
  induction l with
  | nil => rfl
  | cons a t ih =>
    cases hfa : f a <;> simp [List.filterMap_cons, hfa, List.filter_cons, ih]

/-- C9 (amended): at most 5 images are processed per listing; the cached list
has exactly one entry per successfully downloaded image among the first 5,
so a failed download is omitted and never fails the listing; a successfully
downloaded image always contributes its upload result — the public URL, or
the file:// local-path fallback when the upload fails — rather than being
omitted. -/
theorem image_pipeline_spec (download : String → Option String)
    (uploadOutcome : String → UploadOutcome) (urls : List String) :
    (processImages download uploadOutcome urls).length ≤ 5
    ∧ (processImages download uploadOutcome urls).length
        = ((urls.take 5).filter fun u => (download u).isSome).length
    ∧ ∀ u p, u ∈ urls.take 5 → download u = some p →
        upload_to_cdn (uploadOutcome p) p ∈ processImages download uploadOutcome urls := by
  refine ⟨?_, ?_, ?_⟩
  · exact le_trans (List.length_filterMap_le _ _) (List.length_take_le 5 urls)
  · rw [processImages, length_filterMap_eq_count]
    congr 1
    apply List.filter_congr
    intro u hu
    cases download u <;> rfl
  · intro u p hu hd
    rw [processImages, List.mem_filterMap]
    exact ⟨u, hu, by rw [hd]; rfl⟩

/-- C9 (counterexample): one image whose download succeeds (to local path
"p") and whose upload fails contributes the entry "file://p" to the cached
list — the claim that a failed upload is simply omitted is false. -/
theorem image_upload_fail_cx :
    processImages (fun _ => some "p") (fun _ => UploadOutcome.fail) ["u"] = ["file://p"]
    ∧ processImages (fun _ => some "p") (fun _ => UploadOutcome.fail) ["u"] ≠ [] := by
  constructor
  · rfl
  · intro h
    simp [processImages, upload_to_cdn] at h

/-- Row of the production_portal_listings table as save_cached_listing
touches it (fetched_at, which the upsert never updates, is omitted). -/
structure ListingRow where
  source : String
  source_id : String
  ingest_batch_ts : String
  normalized : NormalizedListing
  raw : RawItem
  status : String
  confidence : ℚ

/-- The conflict key of the upsert: (source, source_id, ingest_batch_ts). -/
def rowKey (r : ListingRow) : String × String × String :=
  (r.source, r.source_id, r.ingest_batch_ts)

/-- The freshly inserted row of the upsert's INSERT branch: status 'raw',
identity fields from the raw item and the batch timestamp. -/
def insertRow (raw : RawItem) (normalized : NormalizedListing) (confidence : ℚ)
    (batch_ts : String) : ListingRow :=
  { source := raw.source
    source_id := raw.source_id
    ingest_batch_ts := batch_ts
    normalized := normalized
    raw := raw
    status := "raw"
    confidence := confidence }

/-- Embedding of save_cached_listing (worker.py lines 535-547): INSERT with
status 'raw', ON CONFLICT (source, source_id, ingest_batch_ts) DO UPDATE of
only normalized, raw and confidence.  The table is the list of rows. -/
def save_cached_listing (table : List ListingRow) (raw : RawItem)
    (normalized : NormalizedListing) (confidence : ℚ) (batch_ts : String) :
    List ListingRow :=
  let key := (raw.source, raw.source_id, batch_ts)
  if table.any (fun r => decide (rowKey r = key)) then
    table.map (fun r => if rowKey r = key then
      { r with normalized := normalized, raw := raw, confidence := confidence } else r)
  else
    table ++ [insertRow raw normalized confidence batch_ts]

/-- C8: saving the same raw listing twice under the same (source, source_id,
batch timestamp) key is idempotent — the second save updates in place and
the table is unchanged — and, provided the table held at most one row for
that key (the unique-key invariant), exactly one row with the key exists
afterwards: no duplicate row is ever created. -/
theorem upsert_idempotent (table : List ListingRow) (raw : RawItem)
    (normalized : NormalizedListing) (confidence : ℚ) (batch_ts : String)
    (huniq : (table.filter fun r =>
        decide (rowKey r = (raw.source, raw.source_id, batch_ts))).length ≤ 1) :
    save_cached_listing (save_cached_listing table raw normalized confidence batch_ts)
        raw normalized confidence batch_ts
      = save_cached_listing table raw normalized confidence batch_ts
    ∧ ((save_cached_listing table raw normalized confidence batch_ts).filter fun r =>
        decide (rowKey r = (raw.source, raw.source_id, batch_ts))).length = 1 := by
  classical
  set key := (raw.source, raw.source_id, batch_ts) with hkey
  have hupdKey : ∀ r : ListingRow,
      rowKey ({ r with normalized := normalized, raw := raw, confidence := confidence } : ListingRow)
        = rowKey r := fun r => rfl
  by_cases hany : (table.any fun r => decide (rowKey r = key)) = true
  · -- the key already exists: both saves are map-updates
    have hmapAny : ((table.map fun r => if rowKey r = key then
        { r with normalized := normalized, raw := raw, confidence := confidence } else r).any
          fun r => decide (rowKey r = key)) = true := by
      rw [List.any_map]
      rw [List.any_eq_true] at hany ⊢
      obtain ⟨r, hr, hkr⟩ := hany
      refine ⟨r, hr, ?_⟩
      simp only [Function.comp]
      rw [decide_eq_true_eq] at hkr
      simp [hkr, hupdKey]
    constructor
    · rw [save_cached_listing, save_cached_listing]
      simp only [if_pos hany, if_pos hmapAny, List.map_map]
      apply List.map_congr_left
      intro r hr
      simp only [Function.comp]
      by_cases hkr : rowKey r = key
      · simp [hkr, hupdKey]
      · simp [hkr]
    · rw [save_cached_listing]
      simp only [if_pos hany]
      have hfl : ((table.map fun r => if rowKey r = key then
          { r with normalized := normalized, raw := raw, confidence := confidence } else r).filter
            fun r => decide (rowKey r = key)).length
          = (table.filter fun r => decide (rowKey r = key)).length := by
        rw [List.filter_map, List.length_map]
        congr 1
        apply List.filter_congr
        intro r hr
        by_cases hkr : rowKey r = key
        · simp [Function.comp, hkr, hupdKey]
        · simp [Function.comp, hkr]
      rw [hfl]
      have hpos : 0 < (table.filter fun r => decide (rowKey r = key)).length := by
        rw [List.any_eq_true] at hany
        obtain ⟨r, hr, hkr⟩ := hany
        have : r ∈ table.filter fun r => decide (rowKey r = key) :=
          List.mem_filter.mpr ⟨hr, hkr⟩
        exact List.length_pos.mpr (List.ne_nil_of_mem this)
      omega
  · -- the key is new: the first save appends, the second updates in place
    have hanyF : (table.any fun r => decide (rowKey r = key)) = false :=
      Bool.eq_false_iff.mpr hany
    have hnone : ∀ r ∈ table, ¬(rowKey r = key) := by
      intro r hr
      have := (List.any_eq_false.mp hanyF) r hr
      simpa using this
    have hnew : rowKey (insertRow raw normalized confidence batch_ts) = key := rfl
    have hsave1 : save_cached_listing table raw normalized confidence batch_ts
        = table ++ [insertRow raw normalized confidence batch_ts] := by
      rw [save_cached_listing]
      simp only [← hkey, hanyF, Bool.false_eq_true, if_false]
    have hany2 : ((table ++ [insertRow raw normalized confidence batch_ts]).any
          fun r => decide (rowKey r = key)) = true := by
      rw [List.any_eq_true]
      exact ⟨insertRow raw normalized confidence batch_ts, by simp, decide_eq_true hnew⟩
    constructor
    · rw [hsave1, save_cached_listing]
      simp only [← hkey, hany2, if_pos, List.map_append]
      congr 1
      · conv_rhs => rw [← List.map_id table]
        apply List.map_congr_left
        intro r hr
        simp [hnone r hr]
      · simp [insertRow, hnew]
    · rw [hsave1, List.filter_append]
      have h1 : (table.filter fun r => decide (rowKey r = key)) = [] := by
        rw [List.filter_eq_nil_iff]
        intro r hr
        simp [hnone r hr]
      rw [h1]
      simp [hnew]

/-- Dot product of the similarity scan: sum(a * b) over zipped entries. -/
noncomputable def dotList (a b : List ℝ) : ℝ :=
  (List.zipWith (fun x y => x * y) a b).sum

/-- Vector magnitude of the similarity scan: sum(x * x) to the 0.5 power. -/
noncomputable def magnitude (a : List ℝ) : ℝ :=
  Real.sqrt ((a.map fun x => x * x).sum)

/-- Cosine similarity dot_product / (magnitude_a * magnitude_b). -/
noncomputable def cosineSimilarity (a b : List ℝ) : ℝ :=
  dotList a b / (magnitude a * magnitude b)

open Classical in
/-- Embedding of find_similar_by_embedding (worker.py lines 556-591) applied
to the scanned rows (listing_id, stored vector): a row is kept iff the
stored vector has the query's length, both magnitudes are positive, and the
cosine similarity strictly exceeds the threshold; the ids of the first 5
kept rows are returned in scan order. -/
noncomputable def find_similar_by_embedding (rows : List (ℕ × List ℝ))
    (vector : List ℝ) (threshold : ℝ) : List ℕ :=
  ((rows.filter fun row => decide (row.2.length = vector.length
      ∧ 0 < magnitude vector ∧ 0 < magnitude row.2
      ∧ threshold < cosineSimilarity vector row.2)).map Prod.fst).take 5

/-- The dot product of a vector with itself is its sum of squares. -/
theorem dotList_self (v : List ℝ) : dotList v v = (v.map fun x => x * x).sum := by
  rw [dotList]
  congr 1
  induction v with
  | nil => rfl
  | cons x t ih => simp [ih]

/-- A sum of squares is nonnegative. -/
theorem sumSq_nonneg (v : List ℝ) : 0 ≤ (v.map fun x => x * x).sum := by
  apply List.sum_nonneg
  intro x hx
  obtain ⟨y, _, rfl⟩ := List.mem_map.mp hx
  exact mul_self_nonneg y

/-- A vector with positive sum of squares has cosine similarity exactly 1
with itself. -/
theorem cosineSimilarity_self (v : List ℝ) (hv : 0 < (v.map fun x => x * x).sum) :
    cosineSimilarity v v = 1 := by
  rw [cosineSimilarity, dotList_self, magnitude]
  rw [Real.mul_self_sqrt (le_of_lt hv)]
  exact div_self (ne_of_gt hv)

/-- C5 (amended): an identical stored vector of positive magnitude has cosine
similarity exactly 1.0 with the query and is flagged at any threshold
strictly below 1.0 (the code requires similarity strictly greater than the
threshold), and stored vectors whose length differs from the query's are
skipped, never flagged and never an error. -/
theorem dedup_identical_spec (v : List ℝ) (i : ℕ) (t : ℝ)
    (hv : 0 < (v.map fun x => x * x).sum) (ht : t < 1) :
    cosineSimilarity v v = 1
    ∧ find_similar_by_embedding [(i, v)] v t = [i]
    ∧ ∀ (rows : List (ℕ × List ℝ)) (t2 : ℝ),
        (∀ r ∈ rows, r.2.length ≠ v.length) →
        find_similar_by_embedding rows v t2 = [] := by
  have hsim := cosineSimilarity_self v hv
  have hmag : 0 < magnitude v := Real.sqrt_pos.mpr hv
  refine ⟨hsim, ?_, ?_⟩
  · rw [find_similar_by_embedding]
    have hcond : ((i, v).2.length = v.length
        ∧ 0 < magnitude v ∧ 0 < magnitude (i, v).2
        ∧ t < cosineSimilarity v (i, v).2) := ⟨rfl, hmag, hmag, by rw [hsim]; exact ht⟩
    simp [List.filter_cons, hcond]
  · intro rows t2 hlen
    rw [find_similar_by_embedding]
    have hfil : (rows.filter fun row => decide (row.2.length = v.length
        ∧ 0 < magnitude v ∧ 0 < magnitude row.2
        ∧ t2 < cosineSimilarity v row.2)) = [] := by
      rw [List.filter_eq_nil_iff]
      intro r hr
      simp only [decide_eq_true_eq, not_and]
      intro h1
      exact absurd h1 (hlen r hr)
    rw [hfil]
    rfl

/-- C5 (counterexample): at threshold exactly 1.0 the claim fails: the query
[1, 0] against an identical stored vector has similarity exactly 1.0, yet the
scan flags nothing, because the code compares with strict greater-than. -/
theorem dedup_threshold_cx :
    cosineSimilarity [(1:ℝ), 0] [(1:ℝ), 0] = 1
    ∧ find_similar_by_embedding [(7, [(1:ℝ), 0])] [(1:ℝ), 0] 1 = [] := by
  have hv : (0:ℝ) < (([(1:ℝ), 0]).map fun x => x * x).sum := by norm_num
  have hsim := cosineSimilarity_self [(1:ℝ), 0] hv
  refine ⟨hsim, ?_⟩
  rw [find_similar_by_embedding]
  have hcond : ¬((7, [(1:ℝ), 0]).2.length = ([(1:ℝ), 0]).length
      ∧ 0 < magnitude [(1:ℝ), 0] ∧ 0 < magnitude (7, [(1:ℝ), 0]).2
      ∧ (1:ℝ) < cosineSimilarity [(1:ℝ), 0] (7, [(1:ℝ), 0]).2) := by
    rintro ⟨-, -, -, hgt⟩
    rw [hsim] at hgt
    exact lt_irrefl 1 hgt
  simp [List.filter_cons, hcond]
  intro h
  rw [hsim]

/-- Witness input for the escalation rule: price at the threshold, high
trust, no duplicates. -/
def wC2 : ListingCtx :=
  { normalized := { price := some 300000, images := ["i"] }
    confidence := 9/10
    trustOutcome := TrustOutcome.ok (9/10) }

/-- Witness input for the default decision: cheap listing, high confidence
and trust, no duplicates, so the premium call is skipped. -/
def wC3 : ListingCtx :=
  { normalized := { price := some 100000, images := ["i"] }
    confidence := 9/10 }

/-- Witness input for the missing-field gate: no price. -/
def wC4 : ListingCtx :=
  { normalized := { price := none, images := ["i"] }
    confidence := 1/2 }

/-- At the default-decision witness input the step does not escalate. -/
theorem wC3_not_escalated : (listingStep 50 0 wC3).escalated = false := by
  norm_num [listingStep, wC3, truthyN, call_anthropic_validation,
    GPT5_PRICE_THRESHOLD, TRUST_SCORE_PUBLISH, EMBEDDING_COST]

/-- Witness for the budget bound at the default cap and an empty batch. -/
theorem gpt5_spend_bound_witness :
    (0:ℚ) ≤ 50
    ∧ runLoopSpend 50 [] 0
        ≤ 50 + 2 * GPT5_CALL_COST + ((([] : List ListingCtx)).length : ℚ) * EMBEDDING_COST :=
  ⟨by norm_num, gpt5_spend_bound 50 [] (by norm_num)⟩

/-- Witness for the escalation rule at a concrete threshold-priced listing. -/
theorem escalation_rule_witness :
    (truthyN wC2.normalized.price = true ∧ wC2.normalized.images.isEmpty = false)
    ∧ (((listingStep 50 0 wC2).escalated = true ↔
        ((GPT5_PRICE_THRESHOLD ≤ wC2.normalized.price.getD 0
            ∨ (listingStep 50 0 wC2).trust_score < TRUST_SCORE_PUBLISH
            ∨ wC2.similar ≠ [])
          ∧ 0 + (if wC2.embCharged then EMBEDDING_COST else 0) < 50))
      ∧ (GPT5_PRICE_THRESHOLD ≤ wC2.normalized.price.getD 0 →
          0 + (if wC2.embCharged then EMBEDDING_COST else 0) < 50 →
          (listingStep 50 0 wC2).escalated = true)) :=
  ⟨⟨by decide, by decide⟩, escalation_rule 50 0 wC2 (by decide) (by decide)⟩

/-- Witness for the default decision at a concrete non-escalated listing. -/
theorem default_decision_witness :
    (truthyN wC3.normalized.price = true ∧ wC3.normalized.images.isEmpty = false
      ∧ (listingStep 50 0 wC3).escalated = false)
    ∧ (listingStep 50 0 wC3).final = some
        { approve := true
          price_band := ⟨⌊(wC3.normalized.price.getD 0 : ℚ) * (19/20)⌋,
            wC3.normalized.price.getD 0, ⌊(wC3.normalized.price.getD 0 : ℚ) * (21/20)⌋, 7/10⟩
          summary := "Standard listing"
          final_trust_score := min (17/20) (listingStep 50 0 wC3).trust_score } :=
  ⟨⟨by decide, by decide, wC3_not_escalated⟩,
    default_decision 50 0 wC3 (by decide) (by decide) wC3_not_escalated⟩

/-- Witness for the missing-field gate at a concrete price-less listing. -/
theorem missing_field_gate_witness :
    (wC4.normalized.price = none ∨ wC4.normalized.images = [])
    ∧ ((listingStep 50 0 wC4).status = Status.needs_human
      ∧ (listingStep 50 0 wC4).trustCalled = false
      ∧ (listingStep 50 0 wC4).escalated = false
      ∧ (listingStep 50 0 wC4).final = none
      ∧ (listingStep 50 0 wC4).spend = 0
      ∧ (listingStep 50 0 wC4).status ≠ Status.published) :=
  ⟨Or.inl rfl, missing_field_gate 50 0 wC4 (Or.inl rfl)⟩

/-- Witness for the idempotent upsert on the empty table. -/
theorem upsert_idempotent_witness :
    ((([] : List ListingRow).filter fun r => decide (rowKey r = ("", "", "t"))).length ≤ 1)
    ∧ (save_cached_listing (save_cached_listing [] {} {} (1/2) "t") {} {} (1/2) "t"
        = save_cached_listing [] {} {} (1/2) "t"
      ∧ ((save_cached_listing [] {} {} (1/2) "t").filter fun r =>
          decide (rowKey r = ("", "", "t"))).length = 1) :=
  ⟨by decide, upsert_idempotent [] {} {} (1/2) "t" (by decide)⟩

/-- Witness for the image pipeline facts at one image with a successful
download and upload. -/
theorem image_pipeline_spec_witness :
    (processImages (fun _ => some "p") (fun _ => UploadOutcome.ok "cdn") ["u"]).length ≤ 5
    ∧ (processImages (fun _ => some "p") (fun _ => UploadOutcome.ok "cdn") ["u"]).length
        = (((["u"] : List String).take 5).filter fun _ => (some "p" : Option String).isSome).length
    ∧ ∀ u p, u ∈ (["u"] : List String).take 5 → (some "p" : Option String) = some p →
        upload_to_cdn (UploadOutcome.ok "cdn") p
          ∈ processImages (fun _ => some "p") (fun _ => UploadOutcome.ok "cdn") ["u"] :=
  image_pipeline_spec (fun _ => some "p") (fun _ => UploadOutcome.ok "cdn") ["u"]

/-- Witness for the two fallback approval floors at price 2. -/
theorem gpt5_fallback_floors_witness :
    (({ price := some 2 } : NormalizedListing).price = some 2)
    ∧ ((call_gpt5_finalize GptOutcome.noClient { price := some 2 }).1.approve = decide (0 < 2)
      ∧ (call_gpt5_finalize GptOutcome.noClient { price := some 2 }).1.price_band
          = ⟨⌊((2:ℕ) : ℚ) * (19/20)⌋, (2:ℕ), ⌊((2:ℕ) : ℚ) * (21/20)⌋, 7/10⟩
      ∧ (call_gpt5_finalize GptOutcome.noClient { price := some 2 }).1.final_trust_score = 3/4
      ∧ (call_gpt5_finalize GptOutcome.noClient { price := some 2 }).2 = 0
      ∧ (call_gpt5_finalize GptOutcome.err { price := some 2 }).1.approve = decide (50000 < 2)
      ∧ (call_gpt5_finalize GptOutcome.err { price := some 2 }).2 = 0
      ∧ ((call_gpt5_finalize GptOutcome.noClient
            ({ price := some 1000 } : NormalizedListing)).1.approve = true
          ∧ (call_gpt5_finalize GptOutcome.err
            ({ price := some 1000 } : NormalizedListing)).1.approve = false)) :=
  ⟨rfl, gpt5_fallback_floors { price := some 2 } 2 rfl⟩

/-- Witness for the amended dedup claim at the vector [1, 0] with id 9 and
threshold one half. -/
theorem dedup_identical_spec_witness :
    ((0:ℝ) < (([(1:ℝ), 0]).map fun x => x * x).sum ∧ (1:ℝ)/2 < 1)
    ∧ (cosineSimilarity [(1:ℝ), 0] [(1:ℝ), 0] = 1
      ∧ find_similar_by_embedding [(9, [(1:ℝ), 0])] [(1:ℝ), 0] (1/2) = [9]
      ∧ ∀ (rows : List (ℕ × List ℝ)) (t2 : ℝ),
          (∀ r ∈ rows, r.2.length ≠ ([(1:ℝ), 0]).length) →
          find_similar_by_embedding rows [(1:ℝ), 0] t2 = []) :=
  ⟨⟨by norm_num, by norm_num⟩,
    dedup_identical_spec [(1:ℝ), 0] 9 (1/2) (by norm_num) (by norm_num)⟩

end Cararth
